import Mathlib

/-!
Verification of the IoT carbon-emission monitor firmware (src/AVR_code.c).

The development is a shallow embedding of the firmware's core logic:
the 44-byte meter-frame capture interrupt handler (USART0_RX_vect), the
field-extraction helpers (get_u16 / get_u24), the URL formatter
(build_http_url), the GPRS bring-up state machine (gprs_fsm), the HTTP
uplink state machine (http_fsm), and the delay-gate arithmetic used by
the main loop and both state machines.

Machine integers are modelled as Nat with explicit reduction modulo
2^8, 2^16 or 2^32 exactly where the C types truncate.  The printf
floating-point conversions "%.Nf" applied to a raw integer divided by
10^N are modelled by exact fixed-point decimal rendering of the raw
integer (integer part, a dot, then exactly N fractional digits), which
is the decimal value the C expression denotes.
-/

/-- Modulus of uint32_t arithmetic (2^32). -/
def UINT32_MOD : Nat := 4294967296

/-- Modulus of uint16_t arithmetic (2^16). -/
def UINT16_MOD : Nat := 65536

/-- C constant COMMAND_DELAY_MS: delay between AT commands. -/
def COMMAND_DELAY_MS : Nat := 2000

/-- C constant HTTP_DELAY_MS: delay between HTTP steps. -/
def HTTP_DELAY_MS : Nat := 1500

/-- The unsigned 32-bit subtraction `now - start` of the C gating
expressions, for arbitrary Nat representatives of the two uint32_t
counters: both arguments are reduced to their 32-bit values and the
difference is taken modulo 2^32. -/
def sub32 (now start : Nat) : Nat :=
  (now % UINT32_MOD + UINT32_MOD - start % UINT32_MOD) % UINT32_MOD

/-- The main loop's poll-period expression
`(uint16_t)(tick10ms - meterKickTimer)`: `tick10ms` is uint32_t,
`meterKickTimer` is uint16_t (promoted to uint32_t for the
subtraction), and the 32-bit difference is truncated to 16 bits. -/
def meterKickElapsed (tick10ms meterKickTimer : Nat) : Nat :=
  (tick10ms % UINT32_MOD + UINT32_MOD - meterKickTimer % UINT16_MOD) % UINT32_MOD % UINT16_MOD

/-! Meter data layout (meter_index_t). -/

/-- Offset of the 2-byte voltage field. -/
def IDX_VOLTAGE : Nat := 0

/-- Offset of the 2-byte current field. -/
def IDX_CURRENT : Nat := 2

/-- Offset of the 1-byte power-factor field. -/
def IDX_POWER_FACTOR : Nat := 4

/-- Offset of the 3-byte load field. -/
def IDX_LOAD_KW : Nat := 5

/-- Offset of the 3-byte total-kWh field. -/
def IDX_KWH_TOTAL : Nat := 11

/-- Offset of the date byte. -/
def IDX_DATE : Nat := 29

/-- Offset of the month byte. -/
def IDX_MONTH : Nat := 30

/-- Offset of the year byte. -/
def IDX_YEAR : Nat := 31

/-- Offset of the hour byte. -/
def IDX_HOUR : Nat := 32

/-- Offset of the minute byte. -/
def IDX_MINUTE : Nat := 33

/-- Offset of the second byte. -/
def IDX_SECOND : Nat := 34

/-- Offset of the 2-byte frequency field. -/
def IDX_FREQUENCY : Nat := 35

/-- Offset of the frame end marker (should be 0xDD). -/
def IDX_FRAME_END : Nat := 43

/-! Frame capture: the globals meterBuf / meterIdx / frameReady and the
UART0 receive interrupt handler. -/

/-- The capture state shared between USART0_RX_vect and the main loop:
the 44-byte frame buffer, the write cursor (uint8_t) and the
frame-ready flag. -/
structure Capture where
  meterBuf : List Nat
  meterIdx : Nat
  frameReady : Bool
deriving Repr, DecidableEq

/-- Reset state of the capture globals: zeroed 44-byte buffer, cursor 0,
flag clear. -/
def capInit : Capture := ⟨List.replicate 44 0, 0, false⟩

/-- USART0_RX_vect: store the received byte (a uint8_t, hence the
`% 256`) at the cursor, post-increment the uint8_t cursor; when the
cursor reaches 44 the frame is complete: if the byte at
IDX_FRAME_END equals 0xDD set frameReady, and reset the cursor to 0
unconditionally. -/
def usart0_rx (c : Capture) (byte : Nat) : Capture :=
  let buf := c.meterBuf.set c.meterIdx (byte % 256)
  let idx := (c.meterIdx + 1) % 256
  if idx = 44 then
    { meterBuf := buf, meterIdx := 0,
      frameReady := if buf.getD IDX_FRAME_END 0 = 221 then true else c.frameReady }
  else
    { meterBuf := buf, meterIdx := idx, frameReady := c.frameReady }

/-- Feed a sequence of received bytes to the interrupt handler, one
invocation per byte. -/
def feedBytes (c : Capture) (bs : List Nat) : Capture :=
  bs.foldl usart0_rx c

/-- The two operations that touch the capture cursor: a receive
interrupt, and the main loop's periodic `meterIdx = 0` reset before
re-polling the meter. -/
inductive CapOp
  | rx (byte : Nat)
  | pollReset
deriving Repr, DecidableEq

/-- Apply one cursor-touching operation. -/
def capStep (c : Capture) : CapOp → Capture
  | .rx b => usart0_rx c b
  | .pollReset => { c with meterIdx := 0 }

/-- Apply a sequence of cursor-touching operations. -/
def capRun (c : Capture) (ops : List CapOp) : Capture :=
  ops.foldl capStep c

/-! Meter data helpers. -/

/-- get_u16: big-endian 16-bit field `(meterBuf[idx] << 8) | meterBuf[idx+1]`.
Buffer entries are uint8_t values (< 256), so the shift-or is
`hi * 256 + lo`. -/
def get_u16 (buf : List Nat) (idx : Nat) : Nat :=
  buf.getD idx 0 * 256 + buf.getD (idx + 1) 0

/-- get_u24: big-endian 24-bit field from three consecutive bytes. -/
def get_u24 (buf : List Nat) (idx : Nat) : Nat :=
  buf.getD idx 0 * 65536 + buf.getD (idx + 1) 0 * 256 + buf.getD (idx + 2) 0

/-! Decimal rendering, modelling the printf conversions used by
build_http_url. -/

/-- The ASCII digit character for a decimal digit. -/
def decChar (d : Nat) : Char := Char.ofNat (48 + d)

/-- Fuel-indexed decimal digit rendering of a Nat, most significant
digit first.  With fuel > n it renders all digits of n. -/
def decAux : Nat → Nat → List Char
  | 0, _ => []
  | fuel + 1, n =>
    if n < 10 then [decChar n]
    else decAux fuel (n / 10) ++ [decChar (n % 10)]

/-- Decimal rendering of a Nat, as printed by printf's %u. -/
def natToDec (n : Nat) : String := String.mk (decAux (n + 1) n)

/-- Left-pad a string with ASCII zeros to width `w` (printf's `0`
flag with a minimum field width). -/
def padZero (w : Nat) (s : String) : String :=
  String.mk (List.replicate (w - s.length) (Char.ofNat 48)) ++ s

/-- The decimal string printf's `%.Nf` produces for the exact value
`raw / 10^d`: the integer part, a dot, then exactly `d` fractional
digits. -/
def fmtFixed (raw d : Nat) : String :=
  natToDec (raw / 10 ^ d) ++ "." ++ padZero d (natToDec (raw % 10 ^ d))

/-- printf's `%02u`: the decimal rendering zero-padded to width 2. -/
def fmt02u (n : Nat) : String := padZero 2 (natToDec n)

/-- C constant URL_BASE. -/
def URL_BASE : String := "http://2e40139af09b.ngrok-free.app/meter"

/-- build_http_url: extract the meter fields, scale them by the
documented powers of ten, and format the HTTP GET request target.
Voltage and current are 16-bit with divisors 100 and 1000, power
factor is one byte with divisor 100, load and total energy are 24-bit
with divisors 100000 and 100, frequency is 16-bit with divisor 10;
the six date-time bytes are printed with %02u, with a URL-encoded
space between date and time. -/
def build_http_url (buf : List Nat) : String :=
  URL_BASE ++ "?v=" ++ fmtFixed (get_u16 buf IDX_VOLTAGE) 2
    ++ "&c=" ++ fmtFixed (get_u16 buf IDX_CURRENT) 3
    ++ "&pf=" ++ fmtFixed (buf.getD IDX_POWER_FACTOR 0) 2
    ++ "&l=" ++ fmtFixed (get_u24 buf IDX_LOAD_KW) 5
    ++ "&k=" ++ fmtFixed (get_u24 buf IDX_KWH_TOTAL) 2
    ++ "&f=" ++ fmtFixed (get_u16 buf IDX_FREQUENCY) 1
    ++ "&d=" ++ fmt02u (buf.getD IDX_DATE 0)
    ++ "-" ++ fmt02u (buf.getD IDX_MONTH 0)
    ++ "-" ++ fmt02u (buf.getD IDX_YEAR 0)
    ++ "%20" ++ fmt02u (buf.getD IDX_HOUR 0)
    ++ ":" ++ fmt02u (buf.getD IDX_MINUTE 0)
    ++ ":" ++ fmt02u (buf.getD IDX_SECOND 0)
    ++ "&s=atmega328pb"

/-- snprintf into a buffer of `n` bytes: at most `n - 1` characters are
stored and the result is always NUL-terminated; the stored string is
the formatted string truncated to `n - 1` characters. -/
def snprintfTrunc (n : Nat) (s : String) : String :=
  String.mk (s.data.take (n - 1))

/-! GPRS initialization state machine. -/

/-- gprs_state_t: the ten states of the bring-up sequencer, in
declaration order. -/
inductive GprsState
  | idle
  | atCmd
  | ate0
  | cpin
  | creg
  | csq
  | apn
  | attach
  | netopen
  | ready
deriving Repr, DecidableEq

/-- The bring-up sequencer's mutable globals: gprsState, gprsTimer
(uint32_t state-entry timestamp) and the gprsReady flag. -/
structure Gprs where
  gprsState : GprsState
  gprsTimer : Nat
  gprsReady : Bool
deriving Repr, DecidableEq

/-- Reset state of the bring-up sequencer globals. -/
def gprsInit : Gprs := ⟨.idle, 0, false⟩

/-- The declaration-order index of a bring-up state (idle = 0 …
ready = 9). -/
def gprsIdx : GprsState → Nat
  | .idle => 0
  | .atCmd => 1
  | .ate0 => 2
  | .cpin => 3
  | .creg => 4
  | .csq => 5
  | .apn => 6
  | .attach => 7
  | .netopen => 8
  | .ready => 9

/-- The successor of each bring-up state in the fixed forward order
(ready is terminal). -/
def gprsNext : GprsState → GprsState
  | .idle => .atCmd
  | .atCmd => .ate0
  | .ate0 => .cpin
  | .cpin => .creg
  | .creg => .csq
  | .csq => .apn
  | .apn => .attach
  | .attach => .netopen
  | .netopen => .ready
  | .ready => .ready

/-- gprs_fsm: one service call of the bring-up sequencer at time `now`
(the millis() value).  Returns the updated globals and the list of
strings sent to the modem UART during the call.  The idle case fires
unconditionally; every other transition is gated by
`(now - gprsTimer) >= COMMAND_DELAY_MS` in uint32 arithmetic; once
gprsReady is set the function returns immediately. -/
def gprs_fsm (s : Gprs) (now : Nat) : Gprs × List String :=
  if s.gprsReady then (s, [])
  else
    match s.gprsState with
    | .idle =>
      ({ s with gprsTimer := now, gprsState := .atCmd }, ["AT\r\n"])
    | .atCmd =>
      if sub32 now s.gprsTimer ≥ COMMAND_DELAY_MS then
        ({ s with gprsTimer := now, gprsState := .ate0 }, ["ATE0\r\n"])
      else (s, [])
    | .ate0 =>
      if sub32 now s.gprsTimer ≥ COMMAND_DELAY_MS then
        ({ s with gprsTimer := now, gprsState := .cpin }, ["AT+CPIN?\r\n"])
      else (s, [])
    | .cpin =>
      if sub32 now s.gprsTimer ≥ COMMAND_DELAY_MS then
        ({ s with gprsTimer := now, gprsState := .creg }, ["AT+CREG?\r\n"])
      else (s, [])
    | .creg =>
      if sub32 now s.gprsTimer ≥ COMMAND_DELAY_MS then
        ({ s with gprsTimer := now, gprsState := .csq }, ["AT+CSQ\r\n"])
      else (s, [])
    | .csq =>
      if sub32 now s.gprsTimer ≥ COMMAND_DELAY_MS then
        ({ s with gprsTimer := now, gprsState := .apn },
         ["AT+CGDCONT=1,\"IP\",\"airtelgprs.com\"\r\n"])
      else (s, [])
    | .apn =>
      if sub32 now s.gprsTimer ≥ COMMAND_DELAY_MS then
        ({ s with gprsTimer := now, gprsState := .attach }, ["AT+CGATT=1\r\n"])
      else (s, [])
    | .attach =>
      if sub32 now s.gprsTimer ≥ COMMAND_DELAY_MS then
        ({ s with gprsTimer := now, gprsState := .netopen }, ["AT+NETOPEN\r\n"])
      else (s, [])
    | .netopen =>
      if sub32 now s.gprsTimer ≥ COMMAND_DELAY_MS then
        ({ s with gprsReady := true, gprsState := .ready }, [])
      else (s, [])
    | .ready => (s, [])

/-! HTTP transmission state machine. -/

/-- http_state_t: the seven states of the uplink sequencer. -/
inductive HttpState
  | idle
  | term
  | init
  | cid
  | url
  | action
  | complete
deriving Repr, DecidableEq

/-- The uplink sequencer's mutable globals: httpState, httpTimer
(uint32_t) and the httpUrl buffer contents. -/
structure Http where
  httpState : HttpState
  httpTimer : Nat
  httpUrl : String
deriving Repr, DecidableEq

/-- Reset state of the uplink sequencer globals (httpUrl zeroed). -/
def httpInit : Http := ⟨.idle, 0, ""⟩

/-- The successor of each uplink state in the fixed cycle
idle → term → init → cid → url → action → complete → idle. -/
def httpNext : HttpState → HttpState
  | .idle => .term
  | .term => .init
  | .init => .cid
  | .cid => .url
  | .url => .action
  | .action => .complete
  | .complete => .idle

/-- http_fsm: one service call of the uplink sequencer at time `now`,
reading the meter buffer `buf` and the gprsReady / frameReady flags.
Returns the updated globals, the updated frameReady flag, and the
strings sent to the modem UART.  The guard returns immediately unless
both flags hold; the idle case builds the URL and fires
unconditionally; term/init/cid/url are gated by HTTP_DELAY_MS, action
by 2 * HTTP_DELAY_MS (clearing frameReady without touching httpTimer),
and complete by HTTP_DELAY_MS. -/
def http_fsm (buf : List Nat) (gprsReady frameReady : Bool) (s : Http) (now : Nat) :
    Http × Bool × List String :=
  if !gprsReady || !frameReady then (s, frameReady, [])
  else
    match s.httpState with
    | .idle =>
      ({ s with httpUrl := build_http_url buf, httpTimer := now, httpState := .term },
       frameReady, ["AT+HTTPTERM\r\n"])
    | .term =>
      if sub32 now s.httpTimer ≥ HTTP_DELAY_MS then
        ({ s with httpTimer := now, httpState := .init }, frameReady, ["AT+HTTPINIT\r\n"])
      else (s, frameReady, [])
    | .init =>
      if sub32 now s.httpTimer ≥ HTTP_DELAY_MS then
        ({ s with httpTimer := now, httpState := .cid }, frameReady,
         ["AT+HTTPPARA=\"CID\",1\r\n"])
      else (s, frameReady, [])
    | .cid =>
      if sub32 now s.httpTimer ≥ HTTP_DELAY_MS then
        ({ s with httpTimer := now, httpState := .url }, frameReady,
         ["AT+HTTPPARA=\"URL\",\"", s.httpUrl, "\"\r\n"])
      else (s, frameReady, [])
    | .url =>
      if sub32 now s.httpTimer ≥ HTTP_DELAY_MS then
        ({ s with httpTimer := now, httpState := .action }, frameReady,
         ["AT+HTTPACTION=0\r\n"])
      else (s, frameReady, [])
    | .action =>
      if sub32 now s.httpTimer ≥ HTTP_DELAY_MS * 2 then
        ({ s with httpState := .complete }, false, [])
      else (s, frameReady, [])
    | .complete =>
      if sub32 now s.httpTimer ≥ HTTP_DELAY_MS then
        ({ s with httpState := .idle }, frameReady, [])
      else (s, frameReady, [])

/-- Run a sequence of http_fsm service calls at the given times, with
gprsReady fixed and frameReady threaded through (the only writer of
frameReady between meter frames is http_fsm itself). -/
def httpRun (buf : List Nat) (gprsReady : Bool) (p : Http × Bool) (times : List Nat) :
    Http × Bool :=
  times.foldl (fun q t =>
    let r := http_fsm buf gprsReady q.2 q.1 t
    (r.1, r.2.1)) p

/-- A frame holding all zeros except the 0xDD end marker. -/
def zeroFrame : List Nat := List.replicate 43 0 ++ [221]

/-- The 44-byte frame of the spec's end-to-end scenario: voltage
230.00 V, current 5.000 A, power factor 0.98, load 1.23456, energy
456.78, frequency 50.0, date-time 01-01-24 12:00:00, sentinel 0xDD. -/
def demoFrame : List Nat :=
  [89, 216, 19, 136, 98, 1, 226, 64, 0, 0, 0,
   0, 178, 110, 0, 0, 0, 0, 0, 0, 0, 0, 0, 0, 0, 0, 0, 0, 0,
   1, 1, 24, 12, 0, 0, 1, 244, 0, 0, 0, 0, 0, 0, 221]

set_option maxRecDepth 8000

/-! Shared helper lemmas. -/

/-- Helper: when the true elapsed time is under 2^32, the uint32
subtraction recovers it exactly, even if the 32-bit counter wrapped
between the two samples. -/
theorem sub32_exact (start now : Nat) (h1 : start ≤ now)
    (h2 : now - start < UINT32_MOD) : sub32 now start = now - start := by
  simp only [sub32]
  simp only [UINT32_MOD] at h2 ⊢
  omega

/-- Helper: feeding at most 43 bytes from a cursor position that stays
below the frame boundary leaves frameReady untouched, advances the
cursor by the number of bytes, and preserves the buffer length. -/
theorem feedBytes_partial (bs : List Nat) : ∀ c : Capture,
    c.meterBuf.length = 44 → c.meterIdx + bs.length ≤ 43 →
    (feedBytes c bs).frameReady = c.frameReady ∧
    (feedBytes c bs).meterIdx = c.meterIdx + bs.length ∧
    (feedBytes c bs).meterBuf.length = 44 := by
  induction bs with
  | nil => intro c h1 h2; simp [feedBytes, h1]
  | cons b rest ih =>
    intro c h1 h2
    simp only [List.length_cons] at h2
    have hstep : usart0_rx c b =
        ⟨c.meterBuf.set c.meterIdx (b % 256), c.meterIdx + 1, c.frameReady⟩ := by
      simp only [usart0_rx]
      rw [Nat.mod_eq_of_lt (show c.meterIdx + 1 < 256 by omega)]
      rw [if_neg (by omega)]
    have hrw : feedBytes c (b :: rest) = feedBytes (usart0_rx c b) rest := rfl
    rw [hrw, hstep]
    have hres := ih ⟨c.meterBuf.set c.meterIdx (b % 256), c.meterIdx + 1, c.frameReady⟩
      (by simp [List.length_set, h1]) (by simp; omega)
    refine ⟨hres.1, ?_, hres.2.2⟩
    rw [hres.2.1]
    simp
    omega

/-- Helper: with any fuel, the decimal rendering of `n < 10^k` (k ≥ 1)
has at most `k` digits. -/
theorem decAux_length_le (fuel : Nat) : ∀ n k : Nat, 1 ≤ k → n < 10 ^ k →
    (decAux fuel n).length ≤ k := by
  induction fuel with
  | zero => intro n k h1 h2; simp [decAux]
  | succ fuel ih =>
    intro n k h1 h2
    by_cases h : n < 10
    · simp [decAux, h]
      omega
    · have hk2 : 2 ≤ k := by
        by_contra hc
        push_neg at hc
        have hk1 : k = 1 := by omega
        rw [hk1] at h2
        norm_num at h2
        omega
      obtain ⟨j, rfl⟩ : ∃ j, k = j + 1 := ⟨k - 1, by omega⟩
      have hj : 1 ≤ j := by omega
      have hdiv : n / 10 < 10 ^ j := by
        rw [Nat.div_lt_iff_lt_mul (by norm_num)]
        calc n < 10 ^ (j + 1) := h2
          _ = 10 ^ j * 10 := by ring
      have hih := ih (n / 10) j hj hdiv
      simp [decAux, h, List.length_append]
      omega

/-- Helper: digit-count bound for natToDec. -/
theorem natToDec_length_le (n k : Nat) (h1 : 1 ≤ k) (h2 : n < 10 ^ k) :
    (natToDec n).length ≤ k :=
  calc (natToDec n).length = (decAux (n + 1) n).length := rfl
    _ ≤ k := decAux_length_le (n + 1) n k h1 h2

/-- Helper: exact length of a zero-padded string. -/
theorem padZero_length (w : Nat) (s : String) :
    (padZero w s).length = (w - s.length) + s.length := by
  rw [padZero, String.length_append]
  congr 1
  calc (String.mk (List.replicate (w - s.length) (Char.ofNat 48))).length
      = (List.replicate (w - s.length) (Char.ofNat 48)).length := rfl
    _ = w - s.length := List.length_replicate _ _

/-- Helper: a fixed-point rendering with integer part under `10^k` and
`d` fractional digits has at most `k + 1 + d` characters. -/
theorem fmtFixed_length_le (raw d k : Nat) (hk : 1 ≤ k) (hd : 1 ≤ d)
    (hint : raw / 10 ^ d < 10 ^ k) :
    (fmtFixed raw d).length ≤ k + 1 + d := by
  have h1 : (natToDec (raw / 10 ^ d)).length ≤ k := natToDec_length_le _ k hk hint
  have h2 : (natToDec (raw % 10 ^ d)).length ≤ d :=
    natToDec_length_le _ d hd (Nat.mod_lt _ (by positivity))
  have h3 := padZero_length d (natToDec (raw % 10 ^ d))
  rw [fmtFixed, String.length_append, String.length_append]
  have hdot : ("." : String).length = 1 := rfl
  omega

/-- Helper: the %02u rendering of a value under 1000 has at most 3
characters. -/
theorem fmt02u_length_le (n : Nat) (h : n < 1000) : (fmt02u n).length ≤ 3 := by
  have h1 : (natToDec n).length ≤ 3 :=
    natToDec_length_le n 3 (by norm_num) (by norm_num; omega)
  have h2 := padZero_length 2 (natToDec n)
  rw [fmt02u]
  omega

/-- Helper: reading any position of a buffer of uint8_t values (with
default 0) yields a value under 256. -/
theorem getD_lt_256 (buf : List Nat) (h : ∀ b ∈ buf, b < 256) (i : Nat) :
    buf.getD i 0 < 256 := by
  rw [List.getD_eq_getElem?_getD]
  cases hg : buf[i]? with
  | none => simp
  | some a =>
    have ha := List.getElem?_mem hg
    simpa using h a ha

/-! Claim theorems. -/

/-- Claim C2: feeding a 44-byte frame to the receive handler from
cursor 0 with the flag clear sets frameReady if and only if the byte
stored at terminal offset 43 is 0xDD, the stored terminal byte is the
44th received byte (as a uint8_t), the cursor is reset to 0 regardless
of the terminal value, and frameReady is never set before the 44th
byte. -/
theorem frame_capture_ready_iff (c : Capture) (bs : List Nat)
    (hidx : c.meterIdx = 0) (hlen : c.meterBuf.length = 44)
    (hbs : bs.length = 44) (hfr : c.frameReady = false) :
    ((feedBytes c bs).frameReady = true ↔
        (feedBytes c bs).meterBuf.getD 43 0 = 221) ∧
    (feedBytes c bs).meterBuf.getD 43 0 = bs.getD 43 0 % 256 ∧
    (feedBytes c bs).meterIdx = 0 ∧
    ∀ k, k < 44 → (feedBytes c (bs.take k)).frameReady = false := by
  obtain ⟨x, hx⟩ : ∃ x, bs.drop 43 = [x] := by
    have hd : (bs.drop 43).length = 1 := by simp [List.length_drop, hbs]
    match hm : bs.drop 43 with
    | [y] => exact ⟨y, rfl⟩
    | [] => rw [hm] at hd; simp at hd
    | y :: z :: r => rw [hm] at hd; simp at hd
  have hxval : bs.getD 43 0 = x := by
    have hg : (bs.drop 43)[0]? = some x := by rw [hx]; rfl
    rw [List.getElem?_drop] at hg
    rw [List.getD_eq_getElem?_getD, hg]
    rfl
  have hmid := feedBytes_partial (bs.take 43) c hlen
    (by simp [List.length_take, hbs, hidx])
  have hmidr : (feedBytes c (bs.take 43)).frameReady = false := hmid.1.trans hfr
  have hmidi : (feedBytes c (bs.take 43)).meterIdx = 43 := by
    rw [hmid.2.1, hidx]; simp [List.length_take, hbs]
  have hmidl : (feedBytes c (bs.take 43)).meterBuf.length = 44 := hmid.2.2
  have hfeed : feedBytes c bs = usart0_rx (feedBytes c (bs.take 43)) x := by
    conv_lhs => rw [show bs = bs.take 43 ++ [x] by
      conv_lhs => rw [← List.take_append_drop 43 bs]
      rw [hx]]
    rw [feedBytes, List.foldl_append]
    rfl
  have hfinal : usart0_rx (feedBytes c (bs.take 43)) x =
      ⟨(feedBytes c (bs.take 43)).meterBuf.set 43 (x % 256), 0,
        if ((feedBytes c (bs.take 43)).meterBuf.set 43 (x % 256)).getD 43 0 = 221
          then true else false⟩ := by
    simp only [usart0_rx, hmidi, hmidr, IDX_FRAME_END]
    norm_num
  have hget : ((feedBytes c (bs.take 43)).meterBuf.set 43 (x % 256)).getD 43 0
      = x % 256 := by
    rw [List.getD_eq_getElem?_getD, List.getElem?_set_self]
    · rfl
    · omega
  refine ⟨?_, ?_, ?_, ?_⟩
  · rw [hfeed, hfinal]
    simp only [hget]
    constructor
    · intro hift
      by_contra hne
      rw [if_neg hne] at hift
      exact Bool.false_ne_true hift
    · intro heq
      rw [if_pos heq]
  · rw [hfeed, hfinal]
    simp only [hget, hxval]
  · rw [hfeed, hfinal]
  · intro k hk
    have hpart := feedBytes_partial (bs.take k) c hlen
      (by simp [List.length_take, hbs, hidx]; omega)
    exact hpart.1.trans hfr

/-- Claim C2 witness: the theorem applied to the reset capture state
and a concrete valid 44-byte frame. -/
theorem frame_capture_ready_iff_witness :
    (feedBytes capInit zeroFrame).meterIdx = 0 :=
  (frame_capture_ready_iff capInit zeroFrame rfl (by simp [capInit]) (by decide) rfl).2.2.1

/-- Claim C9: under any sequence of receive interrupts and main-loop
cursor resets, the capture cursor stays below 44, so every buffer
write of the handler (which writes at the current cursor) is inside
the 44-byte frame buffer, whose length is preserved. -/
theorem capture_cursor_in_bounds (ops : List CapOp) : ∀ c : Capture,
    c.meterIdx < 44 →
    (capRun c ops).meterIdx < 44 ∧
      (c.meterBuf.length = 44 → (capRun c ops).meterBuf.length = 44) := by
  induction ops with
  | nil => intro c h; exact ⟨h, fun hl => hl⟩
  | cons op rest ih =>
    intro c h
    have hstep : (capStep c op).meterIdx < 44 ∧
        (c.meterBuf.length = 44 → (capStep c op).meterBuf.length = 44) := by
      cases op with
      | pollReset =>
        exact ⟨by norm_num [capStep], fun hl => by simpa [capStep] using hl⟩
      | rx b =>
        constructor
        · simp only [capStep, usart0_rx]
          split
          · norm_num
          · rename_i hne
            have hm : (c.meterIdx + 1) % 256 = c.meterIdx + 1 :=
              Nat.mod_eq_of_lt (by omega)
            rw [hm] at hne
            simp only [hm]
            omega
        · intro hl
          simp only [capStep, usart0_rx]
          split <;> simp [List.length_set, hl]
    have hrest := ih (capStep c op) hstep.1
    exact ⟨hrest.1, fun hl => hrest.2 (hstep.2 hl)⟩

/-- Claim C9 witness: the invariant applied to a concrete operation
sequence from the reset state. -/
theorem capture_cursor_in_bounds_witness :
    (capRun capInit [CapOp.rx 17, CapOp.pollReset, CapOp.rx 221]).meterIdx < 44 :=
  (capture_cursor_in_bounds [CapOp.rx 17, CapOp.pollReset, CapOp.rx 221] capInit
    (by decide)).1

/-- Claim C3: every service call of the bring-up sequencer either
leaves the state unchanged or moves it to the unique successor in the
fixed order idle, AT, ATE0, CPIN, CREG, CSQ, APN, ATTACH, NETOPEN,
READY (so states are visited in exactly that order, each at most once,
with no backward edge, the successor index always increasing by one);
and once in ready (or once the ready flag is set) a service call
returns all sequencer state unchanged and emits nothing. -/
theorem gprs_forward_order_and_sticky (s : Gprs) (now : Nat) :
    ((gprs_fsm s now).1.gprsState = s.gprsState ∨
      (gprs_fsm s now).1.gprsState = gprsNext s.gprsState) ∧
    (s.gprsState ≠ GprsState.ready →
      gprsIdx (gprsNext s.gprsState) = gprsIdx s.gprsState + 1) ∧
    (s.gprsState = GprsState.ready → gprs_fsm s now = (s, [])) ∧
    (s.gprsReady = true → gprs_fsm s now = (s, [])) := by
  refine ⟨?_, ?_, ?_, ?_⟩
  · by_cases hr : s.gprsReady
    · left; simp [gprs_fsm, hr]
    · cases hs : s.gprsState <;>
        simp [gprs_fsm, hr, hs, gprsNext] <;>
        (try split) <;> simp [hs]
  · intro h
    cases hs : s.gprsState
    all_goals try exact absurd hs h
    all_goals simp [gprsNext, gprsIdx, hs]
  · intro h
    by_cases hr : s.gprsReady <;> simp [gprs_fsm, hr, h]
  · intro h
    simp [gprs_fsm, h]

/-- Claim C3 witness: the sticky-ready conjunct applied to the ready
state. -/
theorem gprs_forward_order_and_sticky_witness :
    gprs_fsm ⟨GprsState.ready, 5, true⟩ 123 = (⟨GprsState.ready, 5, true⟩, []) :=
  (gprs_forward_order_and_sticky ⟨GprsState.ready, 5, true⟩ 123).2.2.1 rfl

/-- Claim C4 counterexample: the very first transition out of idle is
not delay-gated.  At the reset state and time 0 the elapsed time in
the idle state is 0, strictly below COMMAND_DELAY_MS, yet the service
call transitions to the AT state. -/
theorem gprs_idle_transition_ungated :
    (gprs_fsm gprsInit 0).1.gprsState = GprsState.atCmd ∧
      sub32 0 gprsInit.gprsTimer < COMMAND_DELAY_MS := by decide

/-- Claim C4 (amended): every transition of the bring-up sequencer
other than the initial idle transition occurs only when the elapsed
time in the current state, computed as the uint32 subtraction of the
state-entry timestamp from the current count, is at least
COMMAND_DELAY_MS; the idle transition fires on the first service call
with no delay gate. -/
theorem gprs_delay_gates_noninitial (s : Gprs) (now : Nat)
    (hidle : s.gprsState ≠ GprsState.idle)
    (hmove : (gprs_fsm s now).1.gprsState ≠ s.gprsState) :
    sub32 now s.gprsTimer ≥ COMMAND_DELAY_MS := by
  by_cases hr : s.gprsReady
  · simp [gprs_fsm, hr] at hmove
  · by_cases hg : sub32 now s.gprsTimer ≥ COMMAND_DELAY_MS
    · exact hg
    · exfalso
      apply hmove
      cases hs : s.gprsState
      · exact absurd hs hidle
      all_goals simp [gprs_fsm, hr, hs, hg]

/-- Claim C4 witness: the amended gate condition extracted from a
transition that does fire. -/
theorem gprs_delay_gates_noninitial_witness :
    sub32 2000 0 ≥ COMMAND_DELAY_MS :=
  gprs_delay_gates_noninitial ⟨GprsState.atCmd, 0, false⟩ 2000 (by decide) (by decide)

/-- Claim C5: if either the modem-ready flag or the frame-ready flag
is false at a service call, the uplink sequencer returns with all of
its state unchanged, the frame-ready flag unchanged, and nothing
emitted (in particular it never leaves idle). -/
theorem http_guard_blocks (buf : List Nat) (g f : Bool) (s : Http) (now : Nat)
    (h : g = false ∨ f = false) :
    http_fsm buf g f s now = (s, f, []) := by
  rcases h with h | h <;> subst h <;> simp [http_fsm]

/-- Claim C5 witness: the guard applied with the modem-ready flag
false. -/
theorem http_guard_blocks_witness :
    http_fsm [] false true httpInit 7 = (httpInit, true, []) :=
  http_guard_blocks [] false true httpInit 7 (Or.inl rfl)

/-- Claim C1 counterexample: a cycle started with both flags true
reaches complete at the execute-to-complete transition, which clears
frame-ready; because the top guard requires frame-ready, the machine
is still in the non-idle complete state at an arbitrarily late
subsequent service call — the reachable flag value frame-ready = false
keeps it stuck, contradicting the claim that it always returns to
idle within a bounded number of service calls. -/
theorem http_cycle_stuck_in_complete :
    (httpRun zeroFrame true (httpInit, true)
        [0, 1500, 3000, 4500, 6000, 9000, 10500, 1000000000]).1.httpState
      = HttpState.complete ∧
    (httpRun zeroFrame true (httpInit, true)
        [0, 1500, 3000, 4500, 6000, 9000, 10500, 1000000000]).2 = false := by
  decide

/-- Claim C1 (amended): once the uplink sequencer has left idle, each
service call made while both flags hold and the uint32 elapsed time
since the state-entry timestamp is at least 2 * HTTP_DELAY_MS
advances the state to its unique successor in the cycle, clearing
frame-ready exactly at the execute-to-complete transition; so the
machine reaches complete, and then idle, within a bounded number of
such calls — but since the execute-to-complete transition clears
frame-ready, the final complete-to-idle step only happens after a new
frame sets frame-ready again; while frame-ready stays false the
machine remains in complete. -/
theorem http_progress_when_flags_hold (buf : List Nat) (s : Http) (now : Nat)
    (h : sub32 now s.httpTimer ≥ HTTP_DELAY_MS * 2) :
    (http_fsm buf true true s now).1.httpState = httpNext s.httpState ∧
    (http_fsm buf true true s now).2.1 =
      (if s.httpState = HttpState.action then false else true) := by
  have h1 : sub32 now s.httpTimer ≥ HTTP_DELAY_MS := by
    simp only [HTTP_DELAY_MS] at h ⊢; omega
  cases hs : s.httpState <;> simp [http_fsm, httpNext, hs, h, h1]

/-- Claim C1 witness: one progress step from the terminate-session
state. -/
theorem http_progress_when_flags_hold_witness :
    (http_fsm [] true true ⟨HttpState.term, 0, ""⟩ 3000).1.httpState
      = httpNext HttpState.term :=
  (http_progress_when_flags_hold [] ⟨HttpState.term, 0, ""⟩ 3000 (by decide)).1

/-- Claim C10: the execute-to-complete transition clears frame-ready
without updating the state-entry timestamp, so the complete state
delay gate is already satisfied on entry: the first subsequent
service call at which both flags hold (at any time not before the
transition, barring a full 32-bit rollover) returns the machine to
idle immediately. -/
theorem http_complete_gate_presatisfied (buf1 buf2 : List Nat) (s : Http) (t u : Nat)
    (hst : s.httpState = HttpState.action)
    (hts : s.httpTimer ≤ t) (htu : t ≤ u) (hwrap : u - s.httpTimer < UINT32_MOD)
    (hg : HTTP_DELAY_MS * 2 ≤ t - s.httpTimer) :
    (http_fsm buf1 true true s t).1.httpState = HttpState.complete ∧
    (http_fsm buf1 true true s t).1.httpTimer = s.httpTimer ∧
    (http_fsm buf1 true true s t).2.1 = false ∧
    (http_fsm buf2 true true (http_fsm buf1 true true s t).1 u).1.httpState
      = HttpState.idle := by
  have e1 : sub32 t s.httpTimer = t - s.httpTimer :=
    sub32_exact s.httpTimer t hts (by omega)
  have e2 : sub32 u s.httpTimer = u - s.httpTimer :=
    sub32_exact s.httpTimer u (by omega) hwrap
  have hg1 : sub32 t s.httpTimer ≥ HTTP_DELAY_MS * 2 := by rw [e1]; exact hg
  have hstep : http_fsm buf1 true true s t =
      ({ s with httpState := HttpState.complete }, false, []) := by
    simp [http_fsm, hst, hg1]
  rw [hstep]
  refine ⟨rfl, rfl, rfl, ?_⟩
  have hg2 : sub32 u s.httpTimer ≥ HTTP_DELAY_MS := by
    rw [e2]
    simp only [HTTP_DELAY_MS] at hg ⊢
    omega
  simp [http_fsm, hg2]

/-- Claim C10 witness: the execute-to-complete step at time 4000 from
entry timestamp 1000, followed immediately by a call at the same time,
lands in idle. -/
theorem http_complete_gate_presatisfied_witness :
    (http_fsm [] true true
        ((http_fsm [] true true ⟨HttpState.action, 1000, ""⟩ 4000).1) 4000).1.httpState
      = HttpState.idle :=
  (http_complete_gate_presatisfied [] [] ⟨HttpState.action, 1000, ""⟩ 4000 4000 rfl
    (by norm_num) (by norm_num) (by norm_num [UINT32_MOD]) (by decide)).2.2.2

/-- Claim C6: field decoding and URL formatting against the documented
layout.  Voltage bytes 0x09, 0x14 decode big-endian to 2324, which
scaled by 1/100 is 23.24 and renders as 23.24; current bytes
0x00, 0x64 at the current offset decode to 100, which scaled by
1/1000 is 0.100 and renders as 0.100; and the request target built
from the 44-byte demonstration frame contains the expected query
substring. -/
theorem decode_and_url_format :
    get_u16 [9, 20] IDX_VOLTAGE = 2324 ∧
    ((2324 : ℚ) / 100 = 23.24) ∧
    fmtFixed (get_u16 [9, 20] IDX_VOLTAGE) 2 = "23.24" ∧
    get_u16 [0, 0, 0, 100] IDX_CURRENT = 100 ∧
    ((100 : ℚ) / 1000 = 0.100) ∧
    fmtFixed (get_u16 [0, 0, 0, 100] IDX_CURRENT) 3 = "0.100" ∧
    ("v=230.00&c=5.000&pf=0.98&l=1.23456&k=456.78&f=50.0&d=01-01-24%2012:00:00").data
      <:+: (build_http_url demoFrame).data :=
  ⟨by decide, by norm_num, by decide, by decide, by norm_num, by decide, by decide⟩

/-- Claim C7: for every buffer of uint8_t values the formatted request
string has at most 255 characters, so it fits the 256-byte httpUrl
buffer with its NUL terminator and the length-bounded snprintf stores
it without truncation. -/
theorem build_http_url_fits_buffer (buf : List Nat) (h : ∀ b ∈ buf, b < 256) :
    (build_http_url buf).length ≤ 255 ∧
    snprintfTrunc 256 (build_http_url buf) = build_http_url buf := by
  have hb : ∀ i, buf.getD i 0 < 256 := getD_lt_256 buf h
  have hv : get_u16 buf IDX_VOLTAGE < 65536 := by
    have b1 := hb IDX_VOLTAGE; have b2 := hb (IDX_VOLTAGE + 1); rw [get_u16]; omega
  have hcu : get_u16 buf IDX_CURRENT < 65536 := by
    have b1 := hb IDX_CURRENT; have b2 := hb (IDX_CURRENT + 1); rw [get_u16]; omega
  have hfr : get_u16 buf IDX_FREQUENCY < 65536 := by
    have b1 := hb IDX_FREQUENCY; have b2 := hb (IDX_FREQUENCY + 1); rw [get_u16]; omega
  have hld : get_u24 buf IDX_LOAD_KW < 16777216 := by
    have b1 := hb IDX_LOAD_KW; have b2 := hb (IDX_LOAD_KW + 1)
    have b3 := hb (IDX_LOAD_KW + 2); rw [get_u24]; omega
  have hkw : get_u24 buf IDX_KWH_TOTAL < 16777216 := by
    have b1 := hb IDX_KWH_TOTAL; have b2 := hb (IDX_KWH_TOTAL + 1)
    have b3 := hb (IDX_KWH_TOTAL + 2); rw [get_u24]; omega
  have Lv : (fmtFixed (get_u16 buf IDX_VOLTAGE) 2).length ≤ 6 :=
    fmtFixed_length_le _ 2 3 (by norm_num) (by norm_num) (by norm_num; omega)
  have Lc : (fmtFixed (get_u16 buf IDX_CURRENT) 3).length ≤ 6 :=
    fmtFixed_length_le _ 3 2 (by norm_num) (by norm_num) (by norm_num; omega)
  have Lpf : (fmtFixed (buf.getD IDX_POWER_FACTOR 0) 2).length ≤ 4 := by
    have b1 := hb IDX_POWER_FACTOR
    exact fmtFixed_length_le _ 2 1 (by norm_num) (by norm_num)
      (by simp only [show (10:Nat) ^ 2 = 100 from rfl, show (10:Nat) ^ 1 = 10 from rfl]
          omega)
  have Ll : (fmtFixed (get_u24 buf IDX_LOAD_KW) 5).length ≤ 9 :=
    fmtFixed_length_le _ 5 3 (by norm_num) (by norm_num) (by norm_num; omega)
  have Lk : (fmtFixed (get_u24 buf IDX_KWH_TOTAL) 2).length ≤ 9 :=
    fmtFixed_length_le _ 2 6 (by norm_num) (by norm_num) (by norm_num; omega)
  have Lf : (fmtFixed (get_u16 buf IDX_FREQUENCY) 1).length ≤ 6 :=
    fmtFixed_length_le _ 1 4 (by norm_num) (by norm_num) (by norm_num; omega)
  have Ld1 : (fmt02u (buf.getD IDX_DATE 0)).length ≤ 3 := by
    have b1 := hb IDX_DATE; exact fmt02u_length_le _ (by omega)
  have Ld2 : (fmt02u (buf.getD IDX_MONTH 0)).length ≤ 3 := by
    have b1 := hb IDX_MONTH; exact fmt02u_length_le _ (by omega)
  have Ld3 : (fmt02u (buf.getD IDX_YEAR 0)).length ≤ 3 := by
    have b1 := hb IDX_YEAR; exact fmt02u_length_le _ (by omega)
  have Ld4 : (fmt02u (buf.getD IDX_HOUR 0)).length ≤ 3 := by
    have b1 := hb IDX_HOUR; exact fmt02u_length_le _ (by omega)
  have Ld5 : (fmt02u (buf.getD IDX_MINUTE 0)).length ≤ 3 := by
    have b1 := hb IDX_MINUTE; exact fmt02u_length_le _ (by omega)
  have Ld6 : (fmt02u (buf.getD IDX_SECOND 0)).length ≤ 3 := by
    have b1 := hb IDX_SECOND; exact fmt02u_length_le _ (by omega)
  have hlen : (build_http_url buf).length ≤ 255 := by
    rw [build_http_url]
    simp only [String.length_append]
    have e0 : URL_BASE.length = 40 := rfl
    have e1 : ("?v=" : String).length = 3 := rfl
    have e2 : ("&c=" : String).length = 3 := rfl
    have e3 : ("&pf=" : String).length = 4 := rfl
    have e4 : ("&l=" : String).length = 3 := rfl
    have e5 : ("&k=" : String).length = 3 := rfl
    have e6 : ("&f=" : String).length = 3 := rfl
    have e7 : ("&d=" : String).length = 3 := rfl
    have e8 : ("-" : String).length = 1 := rfl
    have e9 : ("%20" : String).length = 3 := rfl
    have e10 : (":" : String).length = 1 := rfl
    have e11 : ("&s=atmega328pb" : String).length = 14 := rfl
    omega
  refine ⟨hlen, ?_⟩
  rw [snprintfTrunc]
  have hdata : (build_http_url buf).data.take 255 = (build_http_url buf).data := by
    apply List.take_of_length_le
    have hsame : (build_http_url buf).data.length = (build_http_url buf).length := rfl
    omega
  rw [hdata]

/-- Claim C7 witness: the bound applied to the demonstration frame. -/
theorem build_http_url_fits_buffer_witness :
    (build_http_url demoFrame).length ≤ 255 :=
  (build_http_url_fits_buffer demoFrame (by decide)).1

/-- Claim C8: the delay comparisons are wraparound-safe modular
unsigned subtractions.  The uint32 subtraction used by the gates of
both sequencers, and the truncated-to-16-bit subtraction of the main
loop poll-period check, both recover the true elapsed time — and so
compare correctly against any threshold — whenever that elapsed time
fits the respective width, even when the counter has rolled over
between the start timestamp and now. -/
theorem wraparound_safe_delay_gates :
    (∀ startReal nowReal : Nat, startReal ≤ nowReal → nowReal - startReal < UINT32_MOD →
      sub32 nowReal startReal = nowReal - startReal) ∧
    (∀ startReal nowReal : Nat, startReal ≤ nowReal → nowReal - startReal < UINT16_MOD →
      meterKickElapsed nowReal startReal = nowReal - startReal) := by
  constructor
  · intro S T h1 h2
    exact sub32_exact S T h1 h2
  · intro S T h1 h2
    simp only [meterKickElapsed]
    simp only [UINT32_MOD, UINT16_MOD] at h2 ⊢
    omega

/-- Claim C8 witness: both subtractions evaluated across a rollover
boundary of the stored counter value. -/
theorem wraparound_safe_delay_gates_witness :
    sub32 4294968296 4294966296 = 2000 ∧ meterKickElapsed 65586 65486 = 100 :=
  ⟨(wraparound_safe_delay_gates.1 4294966296 4294968296 (by norm_num)
      (by norm_num [UINT32_MOD])).trans (by norm_num),
   (wraparound_safe_delay_gates.2 65486 65586 (by norm_num)
      (by norm_num [UINT16_MOD])).trans (by norm_num)⟩
